import Mathlib

/-!
Verification of the ClaimViz development server (src/server.py).

The program subclasses the standard-library static file handler, overriding
end_headers to append four fixed response headers, and runs a module-level
script that prints a banner, binds localhost:8000, and serves until a
KeyboardInterrupt, at which point it prints a shutdown message and exits
with status 0.

The embedding has two parts:
1. per-response header finalization and (spec-modelled) request handling of
   the base file-serving logic, which lives in the Python standard library
   and not in this repository;
2. the module-level script, embedded as the list of observable events of one
   terminating run, parameterized by the environment (bind outcome).
-/

namespace ClaimViz

/-- An HTTP response header: a name/value pair. -/
structure Header where
  name : String
  value : String
deriving DecidableEq, Repr

/-- The four fixed headers sent by CORSRequestHandler.end_headers, in the
order of the send_header calls (src/server.py lines 6-9). -/
def corsHeaders : List Header :=
  [ ⟨"Access-Control-Allow-Origin", "*"⟩,
    ⟨"Cache-Control", "no-cache, no-store, must-revalidate"⟩,
    ⟨"Pragma", "no-cache"⟩,
    ⟨"Expires", "0"⟩ ]

/-- Embedding of CORSRequestHandler.end_headers (src/server.py lines 5-10):
given the headers the base handler has buffered for the current response,
the override appends the four fixed headers via send_header and then
finalizes via the base end_headers, so the finalized response carries the
buffered headers followed by the four fixed ones. -/
def end_headers (buffered : List Header) : List Header :=
  buffered ++ corsHeaders

/-- Modelled from the spec: the classification of a resolved request path by
the base file-serving handler (python standard library, not part of src/).
Spec section 4.1 distinguishes a readable regular file, a directory, a
nonexistent path, and an existing but unreadable path. -/
inductive PathKind where
  | readableFile (contents : String)
  | directory (entries : List String)
  | missing
  | unreadableFile
deriving DecidableEq, Repr

/-- Modelled from the spec: the auto-generated HTML directory listing body
for a directory path (spec section 4.1). -/
def htmlListing (entries : List String) : String :=
  "<html><body><ul>"
    ++ String.join (entries.map (fun e => "<li>" ++ e ++ "</li>"))
    ++ "</ul></body></html>"

/-- An HTTP response: status code, finalized header list, body. -/
structure HttpResponse where
  status : Nat
  headers : List Header
  body : String
deriving DecidableEq, Repr

/-- Modelled from the spec: one request handled by CORSRequestHandler. The
base file-serving logic (python standard library, not in src/) chooses the
status and body from the kind of the resolved path (spec section 4.1);
header finalization goes through the end_headers override of src/server.py,
so every response, success or error, ends with the four fixed headers. -/
def respond (fs : String → PathKind) (buffered : List Header) (p : String) :
    HttpResponse :=
  match fs p with
  | .readableFile c => ⟨200, end_headers buffered, c⟩
  | .directory es => ⟨200, end_headers buffered, htmlListing es⟩
  | .missing => ⟨404, end_headers buffered, "File not found"⟩
  | .unreadableFile => ⟨403, end_headers buffered, "Forbidden"⟩

/-- The status the spec assigns to each path kind (spec section 4.1), stated
from the spec text independently of `respond`, for comparison. -/
def specStatus : PathKind → Nat
  | .readableFile _ => 200
  | .directory _ => 200
  | .missing => 404
  | .unreadableFile => 403

/-- Modelled from the spec: the base handler resolves the request path
against the current working directory, rejecting traversal outside that
root (spec section 4.1). Following the standard behavior of the underlying
file-serving logic, empty, current-directory and parent-directory
components of the request path are discarded and the remaining components
are joined onto the root. Paths are lists of components. -/
def resolvePath (cwd : List String) (request : List String) : List String :=
  cwd ++ request.filter (fun c => c != "" && c != "." && c != "..")

/-- The whole state a request handler can observe across requests: the
filesystem. The handler class of src/server.py defines no attributes and
no other shared state. -/
structure ServerState where
  fs : String → PathKind

/-- Modelled from the spec: handling one request reads the filesystem and
produces a response; the state is passed through so the frame of the
handler is explicit (each request only reads the filesystem, never
writes). -/
def handleRequest (s : ServerState) (buffered : List Header) (p : String) :
    HttpResponse × ServerState :=
  (respond s.fs buffered p, s)

/-- Outcome of the socket bind attempted by the HTTPServer constructor
(src/server.py line 14); an input from the environment. -/
inductive BindOutcome where
  | ok
  | failure (err : String)
deriving DecidableEq, Repr

/-- How the process terminates: sys.exit with a code, or an exception that
reaches the entry point uncaught, in which case the platform surfaces the
error and exits non-zero. -/
inductive ProcessExit where
  | code (n : Nat)
  | uncaught (err : String)
deriving DecidableEq, Repr

/-- Observable events of one run of the module-level script
(src/server.py lines 12-19). -/
inductive Event where
  | println (line : String)
  | bindSocket (hostName : String) (portNum : Nat) (outcome : BindOutcome)
  | accepting
  | socketClosed
  | exited (e : ProcessExit)
deriving DecidableEq, Repr

/-- Environment of one terminating run: whether the bind succeeds. In a
terminating run whose bind succeeds, serve_forever ends with the
KeyboardInterrupt caught on src/server.py line 17. -/
structure Env where
  bind : BindOutcome
deriving DecidableEq, Repr

/-- src/server.py line 12: port = 8000. -/
def port : Nat := 8000

/-- The host component of the fixed bind address (src/server.py line 14). -/
def host : String := "localhost"

/-- The startup banner of src/server.py line 13; the f-string interpolates
the fixed port. -/
def startupBanner : String :=
  "Starting server at http://localhost:" ++ toString port

/-- Embedding of the module-level script of src/server.py lines 12-19 as the
list of observable events of one terminating run. The banner is printed
first (line 13); then HTTPServer binds (line 14): on failure the
constructor closes the socket again and the exception reaches the entry
point uncaught; on success serve_forever accepts (line 16) until the
KeyboardInterrupt, whereupon printing the string made of a newline
followed by the words Server stopped. emits an empty console line and then
the message line (line 18), and sys.exit 0 ends the process (line 19),
closing the socket on teardown. -/
def runScript (env : Env) : List Event :=
  Event.println startupBanner ::
    match env.bind with
    | .failure e =>
        [Event.bindSocket host port (.failure e),
         Event.exited (.uncaught e)]
    | .ok =>
        [Event.bindSocket host port .ok,
         Event.accepting,
         Event.println "",
         Event.println "Server stopped.",
         Event.socketClosed,
         Event.exited (.code 0)]

/-- The console lines a run prints, in order. -/
def outputLines (events : List Event) : List String :=
  events.filterMap fun e =>
    match e with
    | .println l => some l
    | _ => none

/-- The termination a trace records, when it records one. -/
def exitOf (events : List Event) : Option ProcessExit :=
  (events.filterMap fun e =>
    match e with
    | .exited x => some x
    | _ => none).head?

/-- The bind address a trace attempts, when it records one. -/
def bindAddrOf (events : List Event) : Option (String × Nat) :=
  (events.filterMap fun e =>
    match e with
    | .bindSocket hn pn _ => some (hn, pn)
    | _ => none).head?

/-- Whether a process termination is a clean exit with status 0. -/
def exitsZero : ProcessExit → Bool
  | .code 0 => true
  | _ => false

/-- Socket observation along a trace: first component, whether the listening
socket is currently open; second, whether it is accepting connections. -/
def socketStep (s : Bool × Bool) : Event → Bool × Bool
  | .bindSocket _ _ .ok => (true, true)
  | .bindSocket _ _ (.failure _) => (false, false)
  | .socketClosed => (false, false)
  | _ => s

/-- Socket observation after a list of events, starting from no socket. -/
def socketObs (events : List Event) : Bool × Bool :=
  events.foldl socketStep (false, false)

/-- Helper: socketStep preserves the open-iff-accepting invariant. -/
theorem socketStep_inv (s : Bool × Bool) (h : s.1 = s.2) (e : Event) :
    (socketStep s e).1 = (socketStep s e).2 := by
  cases e with
  | bindSocket hn pn o => cases o <;> simp [socketStep]
  | socketClosed => simp [socketStep]
  | println l => simpa [socketStep] using h
  | accepting => simpa [socketStep] using h
  | exited x => simpa [socketStep] using h

/-- Helper: folding socketStep from an invariant state keeps the invariant. -/
theorem foldl_socketStep_inv (l : List Event) (s : Bool × Bool) (h : s.1 = s.2) :
    (l.foldl socketStep s).1 = (l.foldl socketStep s).2 := by
  induction l generalizing s with
  | nil => exact h
  | cons e t ih => exact ih _ (socketStep_inv s h e)

/-- Helper: the finalized headers of every response are the buffered headers
followed by the four fixed headers. -/
theorem respond_headers (fs : String → PathKind) (buffered : List Header)
    (p : String) : (respond fs buffered p).headers = buffered ++ corsHeaders := by
  cases h : fs p <;> simp [respond, h, end_headers]

/-- C1: every response the server sends, success or error, carries the four
headers Access-Control-Allow-Origin, Cache-Control, Pragma and Expires with
exactly the specified values: the end_headers override appends them
unconditionally before the response is finalized. -/
theorem C1_four_headers_on_every_response
    (fs : String → PathKind) (buffered : List Header) (p : String) :
    Header.mk "Access-Control-Allow-Origin" "*" ∈ (respond fs buffered p).headers
    ∧ Header.mk "Cache-Control" "no-cache, no-store, must-revalidate"
        ∈ (respond fs buffered p).headers
    ∧ Header.mk "Pragma" "no-cache" ∈ (respond fs buffered p).headers
    ∧ Header.mk "Expires" "0" ∈ (respond fs buffered p).headers := by
  rw [respond_headers]
  refine ⟨?_, ?_, ?_, ?_⟩ <;> exact List.mem_append_right _ (by simp [corsHeaders])

/-- C2: the response status is 200 with the file contents for a readable
regular file, 200 with the generated directory listing for a directory,
404 for a nonexistent path, and 403 for an existing unreadable path. -/
theorem C2_status_matches_path_kind
    (fs : String → PathKind) (buffered : List Header) (p : String) :
    (respond fs buffered p).status = specStatus (fs p)
    ∧ (∀ c, fs p = PathKind.readableFile c → (respond fs buffered p).body = c)
    ∧ (∀ es, fs p = PathKind.directory es →
        (respond fs buffered p).body = htmlListing es) := by
  cases h : fs p <;> simp [respond, h, specStatus]

/-- C2 witness: a concrete one-file filesystem where the file is readable. -/
theorem C2_status_matches_path_kind_witness :
    (respond (fun _ => PathKind.readableFile "hello") [] "index.html").status
        = specStatus (PathKind.readableFile "hello")
    ∧ (respond (fun _ => PathKind.readableFile "hello") [] "index.html").body
        = "hello" :=
  ⟨(C2_status_matches_path_kind (fun _ => PathKind.readableFile "hello")
      [] "index.html").1,
   (C2_status_matches_path_kind (fun _ => PathKind.readableFile "hello")
      [] "index.html").2.1 "hello" rfl⟩

/-- C3 counterexample: a run whose bind succeeds and that is interrupted does
not print only the banner followed by the single line Server stopped. —
printing a string that starts with a newline emits an empty console line
before the message line. -/
theorem C3_single_shutdown_line_counterexample :
    outputLines (runScript ⟨BindOutcome.ok⟩)
      ≠ [startupBanner, "Server stopped."] := by
  decide

/-- C3 amended: on receiving the interrupt the server stops the accept loop,
prints an empty line followed by the line Server stopped., and terminates
the process with exit status 0. -/
theorem C3_interrupt_shutdown :
    outputLines (runScript ⟨BindOutcome.ok⟩)
        = [startupBanner, "", "Server stopped."]
    ∧ exitOf (runScript ⟨BindOutcome.ok⟩) = some (ProcessExit.code 0)
    ∧ (runScript ⟨BindOutcome.ok⟩).getLast?
        = some (Event.exited (ProcessExit.code 0)) :=
  ⟨rfl, rfl, rfl⟩

/-- C4: a bind failure propagates uncaught to the process entry point: the
run never enters the accept loop and terminates with the underlying error
surfaced and a non-zero status. -/
theorem C4_bind_failure_is_fatal (e : String) :
    exitOf (runScript ⟨BindOutcome.failure e⟩)
        = some (ProcessExit.uncaught e)
    ∧ Event.accepting ∉ runScript ⟨BindOutcome.failure e⟩
    ∧ (exitOf (runScript ⟨BindOutcome.failure e⟩)).all exitsZero = false := by
  refine ⟨rfl, ?_, rfl⟩
  simp [runScript]

/-- C5: the server always binds localhost:8000 — no input of the run model
influences the address — and the startup banner containing the bound URL is
the first console output, printed before the accept loop is entered. -/
theorem C5_fixed_bind_and_banner (env : Env) :
    port = 8000
    ∧ host = "localhost"
    ∧ startupBanner = "Starting server at http://localhost:8000"
    ∧ bindAddrOf (runScript env) = some ("localhost", 8000)
    ∧ (runScript env).head? = some (Event.println startupBanner)
    ∧ (runScript ⟨BindOutcome.ok⟩).take 3
        = [Event.println startupBanner,
           Event.bindSocket host port BindOutcome.ok,
           Event.accepting] := by
  refine ⟨rfl, rfl, rfl, ?_, ?_, rfl⟩
  · rcases env with ⟨b⟩; cases b <;> rfl
  · rfl

/-- C6: every request path resolves to a location under the current working
directory: resolution discards empty, current-directory and
parent-directory components, so the resolved path is the root followed by
plain components and never escapes the root. -/
theorem C6_resolution_stays_under_root (cwd request : List String) :
    ∃ tail, resolvePath cwd request = cwd ++ tail
      ∧ ".." ∉ tail ∧ "." ∉ tail ∧ "" ∉ tail := by
  refine ⟨request.filter (fun c => c != "" && c != "." && c != ".."),
    rfl, ?_, ?_, ?_⟩ <;>
  · intro hmem
    have hpred := List.of_mem_filter hmem
    simp at hpred

/-- C7: along every run the listening socket is open exactly when it is
accepting (so at every point it is open-and-accepting or closed), it is
closed by the end of every terminating run, and when the bind succeeds it
is created, open and accepting, right after startup. -/
theorem C7_socket_lifecycle (env : Env) (k : Nat) :
    (socketObs ((runScript env).take k)).1
        = (socketObs ((runScript env).take k)).2
    ∧ socketObs (runScript env) = (false, false)
    ∧ socketObs ((runScript ⟨BindOutcome.ok⟩).take 2) = (true, true) := by
  refine ⟨foldl_socketStep_inv _ _ rfl, ?_, rfl⟩
  rcases env with ⟨b⟩; cases b <;> rfl

/-- C8: handling a request returns the server state unchanged, so any later
request observes exactly what it would have observed before: requests only
read the filesystem and share no mutable state. -/
theorem C8_requests_do_not_mutate (s : ServerState)
    (buffered : List Header) (p : String)
    (moreBuffered : List Header) (q : String) :
    (handleRequest s buffered p).2 = s
    ∧ handleRequest (handleRequest s buffered p).2 moreBuffered q
        = handleRequest s moreBuffered q :=
  ⟨rfl, rfl⟩

/-- C9: the startup banner is printed before the bind is attempted, so on a
bind failure the banner is already the console output of the aborted run
when the error is surfaced. -/
theorem C9_banner_precedes_bind (e : String) :
    outputLines (runScript ⟨BindOutcome.failure e⟩) = [startupBanner]
    ∧ (runScript ⟨BindOutcome.failure e⟩).take 2
        = [Event.println startupBanner,
           Event.bindSocket host port (BindOutcome.failure e)] :=
  ⟨rfl, rfl⟩

/-- C10: in every response the four injected headers appear after all headers
buffered by the base handler, in the fixed order
Access-Control-Allow-Origin, Cache-Control, Pragma, Expires, as the last
step before header finalization. -/
theorem C10_injected_headers_last_in_fixed_order
    (fs : String → PathKind) (buffered : List Header) (p : String) :
    (respond fs buffered p).headers
      = buffered
        ++ [Header.mk "Access-Control-Allow-Origin" "*",
            Header.mk "Cache-Control" "no-cache, no-store, must-revalidate",
            Header.mk "Pragma" "no-cache",
            Header.mk "Expires" "0"] := by
  rw [respond_headers]; rfl

end ClaimViz
